import Mathlib

/-!
Verification of the tabular filter/projection/export engine and the video
identifier extractor of this repository, via a shallow embedding in Lean 4.

Conventions of the embedding:
* A cell of a table is `Option String`: `none` models a missing/NaN cell,
  `some s` a (stringified) value.  `pdStr` models pandas `astype(str)`,
  which renders NaN as the string "nan".
* A table (`DataFrame`) is an ordered column list plus an ordered row list;
  rows are positional lists of cells aligned with the columns.
* Case-insensitive containment models `str.contains(pat, case=False)`
  on plain (non-regex-significant) patterns as substring search.
* The PDF export artifact is modelled by its list of logical table rows
  (header row followed by data rows); the reportlab rendering of those rows
  to bytes is an external collaborator and out of scope.
-/

/-! ## Definitions: identifier extractor (t1.py) -/

/-- The character class `[a-zA-Z0-9_-]` of the video-id regular expressions. -/
def validIdChar (c : Char) : Bool :=
  c.isAlphanum || c == '_' || c == '-'

/-- `re.match(r'^[a-zA-Z0-9_-]{11}$', s)` succeeds: either exactly eleven
    valid characters, or eleven valid characters followed by a single final
    newline (Python's `$` also matches just before a trailing newline). -/
def matchIdPattern (s : List Char) : Bool :=
  (s.length == 11 && s.all validIdChar)
    || (s.length == 12 && (s.take 11).all validIdChar && s.getLast? == some '\n')

/-- One attempt of `re.search` at the current position: the literal pattern
    `pat` followed by eleven valid characters; on success the captured group
    (those eleven characters). -/
def tryMatchAt (pat s : List Char) : Option (List Char) :=
  if pat.isPrefixOf s then
    let candidate := (s.drop pat.length).take 11
    if candidate.length == 11 && candidate.all validIdChar then some candidate
    else none
  else none

/-- `re.search(pat ++ "([a-zA-Z0-9_-]{11})", s)`: scan left to right and
    return the first captured identifier. -/
def searchIdPattern (pat : List Char) : List Char → Option (List Char)
  | [] => tryMatchAt pat []
  | c :: cs =>
    match tryMatchAt pat (c :: cs) with
    | some v => some v
    | none => searchIdPattern pat cs

/-- Literal part of the regex `youtube\.com/watch\?v=([a-zA-Z0-9_-]{11})`. -/
def watchPat : List Char := "youtube.com/watch?v=".data

/-- Literal part of the regex `youtu\.be/([a-zA-Z0-9_-]{11})`. -/
def youtuBePat : List Char := "youtu.be/".data

/-- Literal part of the regex `youtube\.com/embed/([a-zA-Z0-9_-]{11})`. -/
def embedPat : List Char := "youtube.com/embed/".data

/-- `extract_video_id` from t1.py: return the input unchanged when it
    matches the bare identifier pattern, otherwise try the three URL
    patterns in order and return the first capture; `none` models the
    Python `return None`. -/
def extract_video_id (url : String) : Option String :=
  if matchIdPattern url.data then some url
  else
    match searchIdPattern watchPat url.data with
    | some v => some (String.mk v)
    | none =>
      match searchIdPattern youtuBePat url.data with
      | some v => some (String.mk v)
      | none =>
        match searchIdPattern embedPat url.data with
        | some v => some (String.mk v)
        | none => none

/-! ## Definitions: table model and row-predicate filter (t2.py) -/

/-- A table: an ordered column list and ordered rows; each row is a
    positional list of cells aligned with the columns.  A cell is `none`
    for a missing/NaN value. -/
structure DataFrame where
  cols : List String
  rows : List (List (Option String))
deriving DecidableEq, Repr

/-- Cell access `df[col]` for one row: the cell at the column's position,
    `none` when the column is absent or the row is short. -/
def getCell (cols : List String) (row : List (Option String)) (c : String) :
    Option String :=
  match cols.findIdx? (fun x => x == c) with
  | some i => row.getD i none
  | none => none

/-- pandas `astype(str)`: a NaN cell stringifies to "nan". -/
def pdStr : Option String → String
  | none => "nan"
  | some s => s

/-- ASCII-lowering of a string, modelling Python `str.lower()` on the
    identifiers used here. -/
def lowerStr (s : String) : String :=
  String.mk (s.data.map Char.toLower)

/-- Substring test on character lists. -/
def isSubstr (needle : List Char) : List Char → Bool
  | [] => needle.isEmpty
  | c :: cs => needle.isPrefixOf (c :: cs) || isSubstr needle cs

/-- `series.str.contains(pat, case=False, na=False)` on one stringified
    cell, for the plain (non-regex-significant) patterns used by the app:
    case-insensitive substring containment. -/
def containsCI (hay pat : String) : Bool :=
  isSubstr (lowerStr pat).data (lowerStr hay).data

/-- A per-column selection of `filter_df`: either a list of accepted
    values (multiselect) or a free-text search string. -/
inductive FilterSel where
  | vals (l : List String)
  | search (s : String)
deriving DecidableEq, Repr

/-- Python truthiness of a selection: a non-empty list / non-empty string. -/
def selActive : FilterSel → Bool
  | .vals l => !l.isEmpty
  | .search s => s != ""

/-- One `filters` entry applied to one row: entries for absent columns or
    falsy selections impose no constraint. -/
def entryPass (cols : List String) (row : List (Option String))
    (p : String × FilterSel) : Bool :=
  if cols.contains p.1 && selActive p.2 then
    match p.2 with
    | .vals l => l.contains (pdStr (getCell cols row p.1))
    | .search s => containsCI (pdStr (getCell cols row p.1)) s
  else true

/-- The conjoined row mask of `filter_df`. -/
def rowPass (cols : List String) (filters : List (String × FilterSel))
    (row : List (Option String)) : Bool :=
  filters.all (entryPass cols row)

/-- `filter_df` from t2.py: keep, in order, the rows on which every active
    entry passes.  This positional model is exact for a single application
    to a table with a default contiguous index (every table the program
    loads); `filter_df_pd` below refines it with pandas index labels. -/
def filter_df (df : DataFrame) (filters : List (String × FilterSel)) :
    DataFrame :=
  ⟨df.cols, df.rows.filter (rowPass df.cols filters)⟩

/-- The bare cell condition of one `filter_df` entry (the `isin` /
    case-insensitive `contains` test), without the activity guard. -/
def cellCond (cols : List String) (row : List (Option String))
    (p : String × FilterSel) : Bool :=
  match p.2 with
  | .vals l => l.contains (pdStr (getCell cols row p.1))
  | .search s => containsCI (pdStr (getCell cols row p.1)) s

/-- A pandas frame with its index labels: `index` is parallel to `rows`
    and keeps the original row labels (a filtered frame keeps the labels
    of the surviving rows, it does not renumber them). -/
structure PdFrame where
  cols : List String
  index : List Nat
  rows : List (List (Option String))
deriving DecidableEq, Repr

/-- One `mask &= df[col]...` step of `filter_df`, with pandas label
    alignment.  A boolean Series is modelled as its value at each label
    (`none` = label absent).  `&` outer-joins the two label sets and fills
    a label missing on either side with False (pandas treats NaN as False
    in boolean ops); the label order of the union is irrelevant here
    because a Series is only ever consumed by label lookup.  The cell
    Series `df[col].astype(str).isin(...)` carries the frame's own index
    labels. -/
def pdMaskStep (df : PdFrame) (m : Nat → Option Bool)
    (p : String × FilterSel) : Nat → Option Bool :=
  if df.cols.contains p.1 && selActive p.2 then
    fun l =>
      let x := m l
      let y := ((df.index.zip df.rows).lookup l).map (fun r => cellCond df.cols r p)
      if x.isNone && y.isNone then none
      else some (x.getD false && y.getD false)
  else m

/-- The mask of `filter_df` under pandas semantics:
    `pd.Series([True]*len(df))` carries a fresh RangeIndex 0..len-1
    whatever the frame's own labels are, then the active entries are
    AND-folded with label alignment. -/
def pdMask (df : PdFrame) (filters : List (String × FilterSel)) :
    Nat → Option Bool :=
  filters.foldl (pdMaskStep df)
    (fun l => if l < df.rows.length then some true else none)

/-- `filter_df` from t2.py under pandas index semantics: build the mask,
    then `df[mask]` looks the frame's labels up in the mask — if any label
    is missing the indexer is unalignable and pandas raises (`none`);
    otherwise the rows whose label maps to True are kept in order, with
    their labels. -/
def filter_df_pd (df : PdFrame) (filters : List (String × FilterSel)) :
    Option PdFrame :=
  if df.index.all (fun l => (pdMask df filters l).isSome) then
    some ⟨df.cols,
      (df.index.zip df.rows).filterMap
        (fun q => if (pdMask df filters q.1).getD false then some q.1 else none),
      (df.index.zip df.rows).filterMap
        (fun q => if (pdMask df filters q.1).getD false then some q.2 else none)⟩
  else none

/-! ## Definitions: card projection (t2.py) -/

/-- The whitespace characters removed by Python `str.strip()`. -/
def isPySpace (c : Char) : Bool :=
  c == ' ' || c == '\t' || c == '\n' || c == '\r' || c == '\x0b' || c == '\x0c'

/-- Python `str.strip()`: remove leading and trailing whitespace. -/
def pyStrip (s : String) : String :=
  String.mk (((s.data.dropWhile isPySpace).reverse.dropWhile isPySpace).reverse)

/-- `val(row, col)`: the stripped string value of a cell, "" for a missing
    column or NaN cell. -/
def val (cols : List String) (row : List (Option String)) (c : String) :
    String :=
  ((getCell cols row c).map pyStrip).getD ""

/-- `combine_vals(row, cols, sep)`: join the non-empty values of the listed
    columns with the separator. -/
def combine_vals (cols : List String) (row : List (Option String))
    (cs : List String) (sep : String) : String :=
  String.intercalate sep ((cs.map (val cols row)).filter (fun v => v != ""))

/-- `location_presence(row, locations)`: for each location column that is
    present with a string value, report each of the suffixes CO, Branch,
    Plant occurring in that value, comma-joined. -/
def location_presence (cols : List String) (row : List (Option String))
    (locations : List String) : String :=
  String.intercalate ", "
    (locations.flatMap (fun loc =>
      (["CO", "Branch", "Plant"]).filterMap (fun suf =>
        match getCell cols row loc with
        | some s => if isSubstr suf.data s.data then some (suf ++ " in " ++ loc) else none
        | none => none)))

/-- The line list of `listed_companies_card` (its `as_lines=True` result). -/
def listed_companies_card_lines (cols : List String)
    (row : List (Option String)) : List (String × String) :=
  let locations := ["Agra", "Mumbai", "NCR", "Chennai", "Vadodara",
    "Bangalore", "Pune", "Kolkata", "Hyderabad", "Ahmedabad"]
  let ceo_designation := combine_vals cols row ["CEO Name ", "Designation"] ", "
  let company_bloomberg := combine_vals cols row ["Corporate Name", "Bloomberg Code"] ", "
  let sector_subsector := combine_vals cols row ["Sector", "Sub Sector"] ", "
  let analyst_team := combine_vals cols row ["Relevant Analyst Team (Sector Wise)"] ", "
  let analyst_location := combine_vals cols row ["Head Office"] ", "
  let analyst_team_and_loc := pyStrip (analyst_team ++ ", " ++ analyst_location)
  let cfo_designation := combine_vals cols row ["CFO Connects", "Designation.1"] ", "
  let loc_presence := location_presence cols row locations
  [("CEO & Designation", ceo_designation),
   ("CEO City", val cols row "CEO City"),
   ("Corporate & Bl.Code", company_bloomberg),
   ("Sector & Subsector", sector_subsector),
   ("Analyst & Head Office", analyst_team_and_loc),
   ("CFO Connect & Designation", cfo_designation),
   ("Location Presence", loc_presence)]

/-- The line list of `expert_confirmed_card`. -/
def expert_confirmed_card_lines (cols : List String)
    (row : List (Option String)) : List (String × String) :=
  [("Name", val cols row "Name"),
   ("Designation", val cols row "Designation"),
   ("Sector & Segment", combine_vals cols row ["Sector", "Segments"] " "),
   ("Company & Description", combine_vals cols row ["Company", "Description"] ", "),
   ("Location", val cols row "Location")]

/-- The line list of `expert_potential_card`. -/
def expert_potential_card_lines (cols : List String)
    (row : List (Option String)) : List (String × String) :=
  [("Name", val cols row "Name"),
   ("Designation", val cols row "Designation"),
   ("Sector & Segment", combine_vals cols row ["Sector", "Segment"] " "),
   ("Company & Description", combine_vals cols row ["Company", "Description"] ", "),
   ("Location", val cols row "Location")]

/-- The line list of `channel_checks_card`. -/
def channel_checks_card_lines (cols : List String)
    (row : List (Option String)) : List (String × String) :=
  [("Name", val cols row "Name"),
   ("Sector - Sub Sector", combine_vals cols row ["Sector", "Sub Sector"] " - "),
   ("State & City", combine_vals cols row ["State", "Location"] " "),
   ("Designation / Area of Expertise", val cols row "Designation / Area of Expertise")]

/-- The line list of `ir_data_card`. -/
def ir_data_card_lines (cols : List String)
    (row : List (Option String)) : List (String × String) :=
  [("Bloomberg Code", val cols row "Bloomberg Code"),
   ("Full Name", val cols row "Full Name"),
   ("Sector, Sub Sector", combine_vals cols row ["Sector", "Sub Sector"] ", "),
   ("IR Agency", val cols row "IR Agency")]

/-- The line list of `ministry_contacts_card`. -/
def ministry_contacts_card_lines (cols : List String)
    (row : List (Option String)) : List (String × String) :=
  [("Name", val cols row "Name"),
   ("Designation", val cols row "Designation"),
   ("Sector", val cols row "Sector"),
   ("Department", val cols row "Department"),
   ("Address", val cols row "Address"),
   ("Email", combine_vals cols row ["Email", "Phone Number"] ", ")]

/-- The line list of `generic_card`: one pair per projected column with a
    non-empty value, plus a combined contact line when email or phone is
    non-empty. -/
def generic_card_lines (cols : List String) (row : List (Option String))
    (columns : List String) : List (String × String) :=
  (columns.filterMap (fun c =>
    let v := val cols row c
    if v == "" then none else some (c, v)))
  ++ (let email_phone := combine_vals cols row ["Email", "Phone Number"] ", "
      if email_phone == "" then [] else [("Email, Phone", email_phone)])

/-! ## Definitions: PDF document export (t2.py, `download_pdf_reportlab`) -/

/-- A card projection in line mode: columns and one row in, the ordered
    (label, value) list out. -/
abbrev CardFunc := List String → List (Option String) → List (String × String)

/-- The card function used by the generic (fallback) sheet branch:
    `generic_card` over the table's first eight columns. -/
def genericTake8 : CardFunc := fun cols row => generic_card_lines cols row (cols.take 8)

/-- `dict(lines).get(field, "")`: Python dict construction keeps the last
    occurrence of a duplicate key. -/
def lookupLast (l : List (String × String)) (f : String) : String :=
  (l.reverse.lookup f).getD ""

/-- One rendered cell of the export: the row's projected value for a
    header field, "" when the row's projection lacks that label. -/
def pdfCell (cf : CardFunc) (cols : List String) (row : List (Option String))
    (field : String) : String :=
  lookupLast (cf cols row) field

/-- The header field count of the export — the divisor of the per-column
    width computation `total_width_mm / len(card_fields)`. -/
def numFields (df : DataFrame) (cf : CardFunc) : Nat :=
  match df.rows with
  | [] => 0
  | r0 :: _ => ((cf df.cols r0).map Prod.fst).length

/-- `download_pdf_reportlab` from t2.py, abstracted to the logical table
    rows of the produced document: an empty table returns the byte-empty
    artifact (modelled `some []`); otherwise the header row is built from
    the first row's projected labels, one data row per table row is
    rendered by the same projection keyed by those labels, and the
    division by the field count fails (`none`, a `ZeroDivisionError`)
    when the first row projects no fields. -/
def download_pdf_reportlab (df : DataFrame) (cf : CardFunc) :
    Option (List (List String)) :=
  match df.rows with
  | [] => some []
  | r0 :: _ =>
    let card_fields := (cf df.cols r0).map Prod.fst
    if card_fields.length = 0 then none
    else some (card_fields :: df.rows.map (fun r => card_fields.map (pdfCell cf df.cols r)))

/-! ## Definitions: dashboard aggregator (t2.py, `all_dashboard`) -/

/-- Append columns not already present, preserving first-occurrence order
    (the column union of `pd.concat`). -/
def dedupAppend (acc cs : List String) : List String :=
  cs.foldl (fun a c => if a.contains c then a else a ++ [c]) acc

/-- The columns of the concatenated dashboard table: each sheet's columns
    plus its appended `_sheet` tag, union in order of appearance. -/
def dashAllCols (dfs : List (String × DataFrame)) : List String :=
  dfs.foldl (fun a p => dedupAppend a (p.2.cols ++ ["_sheet"])) []

/-- The dashboard's categorical column: "Sector" when present in the
    concatenated table, else its first column. -/
def dashSectorCol (dfs : List (String × DataFrame)) : String :=
  if (dashAllCols dfs).contains "Sector" then "Sector"
  else (dashAllCols dfs).headD ""

/-- The first concatenated column whose lowered name contains
    "market cap", if any. -/
def dashMarketCapCol (dfs : List (String × DataFrame)) : Option String :=
  (dashAllCols dfs).find? (fun c => isSubstr "market cap".data (lowerStr c).data)

/-- The name-like columns of one sheet (name substring, case-insensitive). -/
def nameColsOf (df : DataFrame) : List String :=
  df.cols.filter (fun c => isSubstr "name".data (lowerStr c).data)

/-- The location-like columns of one sheet. -/
def locColsOf (df : DataFrame) : List String :=
  df.cols.filter (fun c =>
    (["location", "city", "state", "address"] : List String).any
      (fun x => isSubstr x.data (lowerStr c).data))

/-- `multi_col_name_search` from t2.py, as a per-row predicate: blank
    search matches everything, otherwise OR of case-insensitive
    containment over the given columns that exist in the table. -/
def multi_col_name_search (df : DataFrame) (search : String)
    (cols : List String) (row : List (Option String)) : Bool :=
  if pyStrip search == "" then true
  else cols.any (fun c =>
    df.cols.contains c && containsCI (pdStr (getCell df.cols row c)) search)

/-- The active filter selections of the All-sheets dashboard. -/
structure DashState where
  name_search : String
  sector_search : List String
  market_cap_search : List String
  location_search : String
deriving DecidableEq, Repr

/-- `if name_search or sector_search or (market_cap_col and
    market_cap_search) or location_search:` — at least one filter axis is
    active. -/
def anyFilterActive (dfs : List (String × DataFrame)) (S : DashState) : Bool :=
  S.name_search != "" || !S.sector_search.isEmpty
    || ((dashMarketCapCol dfs).isSome && !S.market_cap_search.isEmpty)
    || S.location_search != ""

/-- `filter_applied` for one sheet: some active filter axis touches one of
    the sheet's columns. -/
def sheetApplied (dfs : List (String × DataFrame)) (S : DashState)
    (df : DataFrame) : Bool :=
  (S.name_search != "" && !(nameColsOf df).isEmpty)
  || (!S.sector_search.isEmpty && df.cols.contains (dashSectorCol dfs))
  || (match dashMarketCapCol dfs with
      | some mcc => df.cols.contains mcc && !S.market_cap_search.isEmpty
      | none => false)
  || (S.location_search != "" && !(locColsOf df).isEmpty)

/-- The combined row mask of one sheet: the AND of all filter axes that
    apply to the sheet (an axis that touches none of the sheet's columns
    imposes no constraint). -/
def sheetPred (dfs : List (String × DataFrame)) (S : DashState)
    (df : DataFrame) (row : List (Option String)) : Bool :=
  (if S.name_search != "" && !(nameColsOf df).isEmpty then
    multi_col_name_search df S.name_search (nameColsOf df) row else true)
  && (if !S.sector_search.isEmpty && df.cols.contains (dashSectorCol dfs) then
    S.sector_search.contains (pdStr (getCell df.cols row (dashSectorCol dfs))) else true)
  && (match dashMarketCapCol dfs with
      | some mcc =>
        if df.cols.contains mcc && !S.market_cap_search.isEmpty then
          S.market_cap_search.contains (pdStr (getCell df.cols row mcc))
        else true
      | none => true)
  && (if S.location_search != "" && !(locColsOf df).isEmpty then
    (locColsOf df).any (fun c => containsCI (pdStr (getCell df.cols row c)) S.location_search)
    else true)

/-- One sheet's rows matching the combined predicate, in original order. -/
def sheetFilteredRows (dfs : List (String × DataFrame)) (S : DashState)
    (df : DataFrame) : List (List (Option String)) :=
  df.rows.filter (sheetPred dfs S df)

/-- The grouped result of the All-sheets dashboard when some filter is
    active: each sheet with a filter actually applied and a non-empty
    filtered result, with exactly its matching rows; `none` when no filter
    axis is active (the dashboard then shows the full union instead). -/
def all_dashboard_filtered (dfs : List (String × DataFrame)) (S : DashState) :
    Option (List (String × List (List (Option String)))) :=
  if anyFilterActive dfs S then
    some (dfs.filterMap (fun p =>
      if sheetApplied dfs S p.2 && !(sheetFilteredRows dfs S p.2).isEmpty then
        some (p.1, sheetFilteredRows dfs S p.2)
      else none))
  else none

/-! ## Theorems: identifier extractor -/

/-- A successful pattern search captures exactly eleven valid characters. -/
theorem searchIdPattern_valid (pat : List Char) :
    ∀ s v, searchIdPattern pat s = some v →
      v.length = 11 ∧ v.all validIdChar = true := by
  intro s
  induction s with
  | nil =>
    intro v h
    simp only [searchIdPattern, tryMatchAt] at h
    split at h
    · split at h
      · rename_i hcond
        simp only [Bool.and_eq_true, beq_iff_eq] at hcond
        cases h
        exact ⟨hcond.1, hcond.2⟩
      · exact absurd h (by simp)
    · exact absurd h (by simp)
  | cons c cs ih =>
    intro v h
    simp only [searchIdPattern] at h
    cases hm : tryMatchAt pat (c :: cs) with
    | some w =>
      rw [hm] at h
      cases h
      simp only [tryMatchAt] at hm
      split at hm
      · split at hm
        · rename_i hcond
          simp only [Bool.and_eq_true, beq_iff_eq] at hcond
          cases hm
          exact ⟨hcond.1, hcond.2⟩
        · exact absurd hm (by simp)
      · exact absurd hm (by simp)
    | none =>
      rw [hm] at h
      exact ih v h

/-- A list of exactly eleven valid characters matches the bare id pattern. -/
theorem matchIdPattern_of_eleven (v : List Char)
    (hlen : v.length = 11) (hall : v.all validIdChar = true) :
    matchIdPattern v = true := by
  simp [matchIdPattern, hlen, hall]

/-- C7: every string that matches the 11-character identifier pattern
    exactly (eleven characters from letters, digits, underscore, hyphen)
    is returned unchanged by `extract_video_id`. -/
theorem extract_id_unchanged (s : String)
    (hlen : s.data.length = 11) (hall : s.data.all validIdChar = true) :
    extract_video_id s = some s := by
  unfold extract_video_id
  rw [matchIdPattern_of_eleven s.data hlen hall]
  simp

/-- Witness for C7 at the concrete identifier "dQw4w9WgXcQ". -/
theorem extract_id_unchanged_witness :
    extract_video_id "dQw4w9WgXcQ" = some "dQw4w9WgXcQ" :=
  extract_id_unchanged "dQw4w9WgXcQ" (by decide) (by decide)

/-- C9: whenever `extract_video_id` succeeds, the returned string itself
    matches the identifier pattern, and hence the extractor is idempotent
    on successes. -/
theorem extract_success_matches_and_idempotent (u r : String)
    (h : extract_video_id u = some r) :
    matchIdPattern r.data = true ∧ extract_video_id r = some r := by
  have hmain : matchIdPattern r.data = true := by
    unfold extract_video_id at h
    split at h
    · rename_i hid
      cases h
      exact hid
    · cases hw : searchIdPattern watchPat u.data with
      | some v =>
        rw [hw] at h
        cases h
        have := searchIdPattern_valid watchPat u.data v hw
        exact matchIdPattern_of_eleven v this.1 this.2
      | none =>
        rw [hw] at h
        cases hb : searchIdPattern youtuBePat u.data with
        | some v =>
          rw [hb] at h
          cases h
          have := searchIdPattern_valid youtuBePat u.data v hb
          exact matchIdPattern_of_eleven v this.1 this.2
        | none =>
          rw [hb] at h
          cases he : searchIdPattern embedPat u.data with
          | some v =>
            rw [he] at h
            cases h
            have := searchIdPattern_valid embedPat u.data v he
            exact matchIdPattern_of_eleven v this.1 this.2
          | none =>
            rw [he] at h
            cases h
  refine ⟨hmain, ?_⟩
  unfold extract_video_id
  rw [hmain]
  simp

/-- Witness for C9 at a concrete watch-URL input. -/
theorem extract_success_matches_and_idempotent_witness :
    matchIdPattern (String.data "dQw4w9WgXcQ") = true ∧
      extract_video_id "dQw4w9WgXcQ" = some "dQw4w9WgXcQ" :=
  extract_success_matches_and_idempotent
    "https://www.youtube.com/watch?v=dQw4w9WgXcQ" "dQw4w9WgXcQ" (by decide)

/-- C6: the three URL shapes are tried in the fixed priority order
    watch?v=, youtu.be/, embed/ and the first capture is returned; the
    extractor fails exactly when the input matches none of the four forms
    (bare identifier or the three URL patterns). -/
theorem extract_url_patterns (u : String) :
    (∀ v, searchIdPattern watchPat u.data = some v →
        extract_video_id u = some (String.mk v))
    ∧ (∀ v, searchIdPattern watchPat u.data = none →
        searchIdPattern youtuBePat u.data = some v →
        extract_video_id u = some (String.mk v))
    ∧ (∀ v, searchIdPattern watchPat u.data = none →
        searchIdPattern youtuBePat u.data = none →
        searchIdPattern embedPat u.data = some v →
        extract_video_id u = some (String.mk v))
    ∧ (extract_video_id u = none ↔
        matchIdPattern u.data = false
        ∧ searchIdPattern watchPat u.data = none
        ∧ searchIdPattern youtuBePat u.data = none
        ∧ searchIdPattern embedPat u.data = none) := by
  have hlong : ∀ pat : List Char, 12 < pat.length + 11 →
      ∀ v, searchIdPattern pat u.data = some v → matchIdPattern u.data = false := by
    intro pat hlen v hv
    -- a URL-pattern match needs at least pat.length + 11 characters,
    -- while the bare id pattern accepts at most 12
    have hbound : pat.length + 11 ≤ u.data.length := by
      have : ∀ s v, searchIdPattern pat s = some v → pat.length + 11 ≤ s.length := by
        intro s
        induction s with
        | nil =>
          intro v h
          simp only [searchIdPattern, tryMatchAt] at h
          split at h
          · rename_i hpre
            split at h
            · rename_i hcond
              simp only [Bool.and_eq_true, beq_iff_eq] at hcond
              have h1 := List.IsPrefix.length_le ((List.isPrefixOf_iff_prefix).1 hpre)
              have h2 : (List.drop pat.length ([] : List Char)).length = 0 := by
                simp
              have h3 := hcond.1
              simp only [List.length_take, h2] at h3
              omega
            · exact absurd h (by simp)
          · exact absurd h (by simp)
        | cons c cs ih =>
          intro v h
          simp only [searchIdPattern] at h
          cases hm : tryMatchAt pat (c :: cs) with
          | some w =>
            rw [hm] at h
            simp only [tryMatchAt] at hm
            split at hm
            · rename_i hpre
              split at hm
              · rename_i hcond
                simp only [Bool.and_eq_true, beq_iff_eq] at hcond
                have h3 := hcond.1
                simp only [List.length_take, List.length_drop] at h3
                have := Nat.min_le_right 11 ((c :: cs).length - pat.length)
                rw [h3] at this
                omega
              · exact absurd hm (by simp)
            · exact absurd hm (by simp)
          | none =>
            rw [hm] at h
            have := ih v h
            simp only [List.length_cons]
            omega
      exact this u.data v hv
    cases hmi : matchIdPattern u.data with
    | false => rfl
    | true =>
      exfalso
      simp only [matchIdPattern, Bool.or_eq_true, Bool.and_eq_true, beq_iff_eq] at hmi
      rcases hmi with h1 | h2
      · omega
      · omega
  constructor
  · intro v hv
    unfold extract_video_id
    rw [hlong watchPat (by simp [watchPat]) v hv]
    simp [hv]
  constructor
  · intro v hw hv
    unfold extract_video_id
    rw [hlong youtuBePat (by simp [youtuBePat]) v hv]
    simp [hw, hv]
  constructor
  · intro v hw hb hv
    unfold extract_video_id
    rw [hlong embedPat (by simp [embedPat]) v hv]
    simp [hw, hb, hv]
  · constructor
    · intro h
      unfold extract_video_id at h
      split at h
      · cases h
      · rename_i hid
        refine ⟨by simpa using hid, ?_⟩
        cases hw : searchIdPattern watchPat u.data with
        | some v => rw [hw] at h; cases h
        | none =>
          rw [hw] at h
          cases hb : searchIdPattern youtuBePat u.data with
          | some v => rw [hb] at h; cases h
          | none =>
            rw [hb] at h
            cases he : searchIdPattern embedPat u.data with
            | some v => rw [he] at h; cases h
            | none => exact ⟨rfl, rfl, rfl⟩
    · rintro ⟨h1, h2, h3, h4⟩
      unfold extract_video_id
      rw [h1, h2, h3, h4]
      simp

/-- Witness for C6: a youtu.be URL yields its embedded id (the watch
    pattern having failed), and a non-URL string yields the failure value. -/
theorem extract_url_patterns_witness :
    extract_video_id "https://youtu.be/dQw4w9WgXcQ" = some "dQw4w9WgXcQ"
    ∧ extract_video_id "not a url" = none := by
  constructor
  · exact (extract_url_patterns "https://youtu.be/dQw4w9WgXcQ").2.1
      "dQw4w9WgXcQ".data (by decide) (by decide)
  · exact (extract_url_patterns "not a url").2.2.2.mpr (by decide)

/-! ## Theorems: row-predicate filter -/

/-- Looking a label up in the zip of a contiguous label range with a value
    list reads the value at the label's position. -/
theorem lookup_zip_range {α : Type} (l : List α) :
    ∀ (k j : Nat), ((List.range' k l.length).zip l).lookup j =
      if k ≤ j then l[j - k]? else none := by
  induction l with
  | nil =>
    intro k j
    simp
  | cons a t ih =>
    intro k j
    rw [List.length_cons, List.range'_succ, List.zip_cons_cons]
    by_cases hk : j = k
    · subst hk
      simp [List.lookup]
    · have hne : (j == k) = false := by simp [hk]
      simp only [List.lookup, hne]
      rw [ih (k + 1) j]
      by_cases hle : k ≤ j
      · have h1 : k + 1 ≤ j := by omega
        rw [if_pos h1, if_pos hle]
        have h2 : j - k = (j - (k + 1)) + 1 := by omega
        rw [h2, List.getElem?_cons_succ]
      · have h1 : ¬ (k + 1 ≤ j) := by omega
        rw [if_neg h1, if_neg hle]

/-- Selecting the values of a labelled row list by a positional condition
    equals filtering the rows, when the condition agrees with a row
    predicate at every position. -/
theorem filterMap_zip_range_snd {α : Type} (l : List α) :
    ∀ (k : Nat) (M : Nat → Bool) (q : α → Bool),
      (∀ i (h : i < l.length), M (k + i) = q (l.get ⟨i, h⟩)) →
      ((List.range' k l.length).zip l).filterMap
          (fun p => if M p.1 then some p.2 else none)
        = l.filter q := by
  induction l with
  | nil =>
    intro k M q _
    simp
  | cons a t ih =>
    intro k M q hMq
    rw [List.length_cons, List.range'_succ, List.zip_cons_cons]
    have h0 : M k = q a := by
      have := hMq 0 (by simp)
      simpa using this
    have ht := ih (k + 1) M q (fun i h => by
      have h2 := hMq (i + 1) (by simpa using Nat.succ_lt_succ h)
      have h3 : k + (i + 1) = (k + 1) + i := by omega
      rw [h3] at h2
      simpa using h2)
    rw [List.filterMap_cons, List.filter_cons]
    simp only [h0, ht]
    cases q a <;> simp

/-- A positional selection condition on the labels can be replaced by the
    row predicate it agrees with. -/
theorem filterMap_zip_range_fst {α : Type} (l : List α) :
    ∀ (k : Nat) (M : Nat → Bool) (q : α → Bool),
      (∀ i (h : i < l.length), M (k + i) = q (l.get ⟨i, h⟩)) →
      ((List.range' k l.length).zip l).filterMap
          (fun p => if M p.1 then some p.1 else none)
        = ((List.range' k l.length).zip l).filterMap
          (fun p => if q p.2 then some p.1 else none) := by
  induction l with
  | nil =>
    intro k M q _
    simp
  | cons a t ih =>
    intro k M q hMq
    rw [List.length_cons, List.range'_succ, List.zip_cons_cons]
    have h0 : M k = q a := by
      have := hMq 0 (by simp)
      simpa using this
    have ht := ih (k + 1) M q (fun i h => by
      have h2 := hMq (i + 1) (by simpa using Nat.succ_lt_succ h)
      have h3 : k + (i + 1) = (k + 1) + i := by omega
      rw [h3] at h2
      simpa using h2)
    rw [List.filterMap_cons, List.filterMap_cons]
    simp only [h0, ht]

/-- When every row passes, selecting the labels of the passing rows gives
    back the whole label range. -/
theorem filterMap_zip_range_all {α : Type} (l : List α) :
    ∀ (k : Nat) (q : α → Bool), (∀ a ∈ l, q a = true) →
      ((List.range' k l.length).zip l).filterMap
          (fun p => if q p.2 then some p.1 else none)
        = List.range' k l.length := by
  induction l with
  | nil =>
    intro k q _
    simp
  | cons a t ih =>
    intro k q hall
    rw [List.length_cons, List.range'_succ, List.zip_cons_cons]
    rw [List.filterMap_cons]
    have ha : q a = true := hall a (by simp)
    have ht := ih (k + 1) q (fun b hb => hall b (by simp [hb]))
    simp only [ha, ht, if_pos]

/-- `getD` at an in-range position is `get`. -/
theorem getD_eq_get_of_lt {α : Type} (l : List α) (d : α) :
    ∀ i (h : i < l.length), l.getD i d = l.get ⟨i, h⟩ := by
  induction l with
  | nil =>
    intro i h
    simp at h
  | cons a t ih =>
    intro i h
    cases i with
    | zero => rfl
    | succ j => exact ih j (by simpa using Nat.lt_of_succ_lt_succ h)

/-- With its activity guard satisfied, a `filter_df` entry's test is the
    bare cell condition. -/
theorem entryPass_eq_cellCond (cols : List String) (row : List (Option String))
    (p : String × FilterSel) (hg : (cols.contains p.1 && selActive p.2) = true) :
    entryPass cols row p = cellCond cols row p := by
  unfold entryPass cellCond
  rw [if_pos hg]

/-- On a default-index frame the pandas mask fold stays total on labels
    0..len-1 and computes, at each label, the conjunction of the active
    entries' cell conditions on that row — the positional `rowPass`. -/
theorem pdMask_default (cols : List String) (rows : List (List (Option String))) :
    ∀ (fs : List (String × FilterSel)) (f : Nat → Bool),
      List.foldl (pdMaskStep ⟨cols, List.range rows.length, rows⟩)
          (fun l => if l < rows.length then some (f l) else none) fs
        = fun l => if l < rows.length then
            some (f l && rowPass cols fs (rows.getD l [])) else none := by
  intro fs
  induction fs with
  | nil =>
    intro f
    funext l
    simp only [List.foldl_nil]
    split
    · simp [rowPass]
    · rfl
  | cons p fs ih =>
    intro f
    rw [List.foldl_cons]
    by_cases hg : (cols.contains p.1 && selActive p.2) = true
    · have hstep : pdMaskStep ⟨cols, List.range rows.length, rows⟩
          (fun l => if l < rows.length then some (f l) else none) p
          = fun l => if l < rows.length then
              some (f l && cellCond cols (rows.getD l []) p) else none := by
        funext l
        have hz : ((List.range rows.length).zip rows).lookup l = rows[l]? := by
          rw [List.range_eq_range', lookup_zip_range rows 0 l]
          simp
        simp only [pdMaskStep, hg, if_true]
        rw [hz]
        by_cases hl : l < rows.length
        · rw [getD_eq_get_of_lt rows [] l hl, List.getElem?_eq_getElem hl,
            List.get_eq_getElem]
          simp [hl]
        · rw [List.getElem?_eq_none (by omega : rows.length ≤ l)]
          simp [hl]
      rw [hstep, ih (fun l => f l && cellCond cols (rows.getD l []) p)]
      funext l
      split
      · have hr : rowPass cols (p :: fs) (rows.getD l []) =
            (cellCond cols (rows.getD l []) p && rowPass cols fs (rows.getD l [])) := by
          unfold rowPass
          rw [List.all_cons, entryPass_eq_cellCond _ _ _ hg]
        rw [hr, Bool.and_assoc]
      · rfl
    · have hstep : pdMaskStep ⟨cols, List.range rows.length, rows⟩
          (fun l => if l < rows.length then some (f l) else none) p
          = (fun l => if l < rows.length then some (f l) else none) := by
        show (if (cols.contains p.1 && selActive p.2) = true then _ else _) = _
        rw [if_neg hg]
      rw [hstep, ih f]
      funext l
      split
      · have he : entryPass cols (rows.getD l []) p = true := by
          unfold entryPass
          rw [if_neg hg]
        have hr : rowPass cols (p :: fs) (rows.getD l []) =
            rowPass cols fs (rows.getD l []) := by
          unfold rowPass
          rw [List.all_cons, he, Bool.true_and]
        rw [hr]
      · rfl

/-- On a frame with the default contiguous index, the pandas-semantics
    filter never fails and agrees with the positional `filter_df`: it
    keeps, in order, exactly the rows passing `rowPass` together with
    their labels. -/
theorem filter_df_pd_default (cols : List String)
    (rows : List (List (Option String))) (P : List (String × FilterSel)) :
    filter_df_pd ⟨cols, List.range rows.length, rows⟩ P =
      some ⟨cols,
        ((List.range rows.length).zip rows).filterMap
          (fun q => if rowPass cols P q.2 then some q.1 else none),
        rows.filter (rowPass cols P)⟩ := by
  have hm : pdMask ⟨cols, List.range rows.length, rows⟩ P
      = fun l => if l < rows.length then
          some (true && rowPass cols P (rows.getD l [])) else none := by
    unfold pdMask
    exact pdMask_default cols rows P (fun _ => true)
  have hMq : ∀ i (h : i < rows.length),
      ((if 0 + i < rows.length then
          some (true && rowPass cols P (rows.getD (0 + i) [])) else none).getD false)
        = rowPass cols P (rows.get ⟨i, h⟩) := by
    intro i h
    simp only [Nat.zero_add]
    rw [if_pos h]
    rw [getD_eq_get_of_lt rows [] i h]
    simp
  unfold filter_df_pd
  rw [hm]
  rw [if_pos]
  · congr 1
    rw [PdFrame.mk.injEq]
    refine ⟨rfl, ?_, ?_⟩
    · show ((List.range rows.length).zip rows).filterMap
          (fun q => if (if q.1 < rows.length then
            some (true && rowPass cols P (rows.getD q.1 [])) else none).getD false
          then some q.1 else none) = _
      rw [List.range_eq_range']
      exact filterMap_zip_range_fst rows 0
        (fun l => (if l < rows.length then
          some (true && rowPass cols P (rows.getD l [])) else none).getD false)
        (rowPass cols P) hMq
    · show ((List.range rows.length).zip rows).filterMap
          (fun q => if (if q.1 < rows.length then
            some (true && rowPass cols P (rows.getD q.1 [])) else none).getD false
          then some q.2 else none) = _
      rw [List.range_eq_range']
      exact filterMap_zip_range_snd rows 0
        (fun l => (if l < rows.length then
          some (true && rowPass cols P (rows.getD l [])) else none).getD false)
        (rowPass cols P) hMq
  · rw [List.all_eq_true]
    intro l hl
    rw [List.mem_range] at hl
    simp [hl]

/-- C1 counterexample: under pandas index alignment `filter_df` is not
    idempotent.  On the table with column Sector and rows B, A filtered by
    Sector = [A], one application keeps the A-row (original label 1), but
    re-filtering that output ANDs a fresh RangeIndex mask (labels {0})
    against the pruned label set {1}, filling both sides with False, and
    returns the empty table; with no active entry the re-filter even
    raises on the unalignable mask. -/
theorem filter_df_pd_not_idempotent_cex :
    filter_df_pd ⟨["Sector"], [0, 1], [[some "B"], [some "A"]]⟩
        [("Sector", FilterSel.vals ["A"])]
      = some ⟨["Sector"], [1], [[some "A"]]⟩
    ∧ filter_df_pd ⟨["Sector"], [1], [[some "A"]]⟩
        [("Sector", FilterSel.vals ["A"])]
      = some ⟨["Sector"], [], []⟩
    ∧ filter_df_pd ⟨["Sector"], [1], [[some "A"]]⟩ [] = none
    ∧ (⟨["Sector"], [], []⟩ : PdFrame) ≠ ⟨["Sector"], [1], [[some "A"]]⟩ := by
  refine ⟨by decide, by decide, by decide, by decide⟩

/-- C1 amended: `filter_df` is idempotent only up to index alignment.  A
    single application to a default-index table agrees with the positional
    filter (keeping the surviving labels), and re-filtering the once
    filtered rows returns them unchanged provided they carry a reset,
    default contiguous index; applied directly to the label-preserving
    `df[mask]` output the second pass misaligns and is not the identity. -/
theorem filter_df_pd_reset_idempotent (cols : List String)
    (rows : List (List (Option String))) (P : List (String × FilterSel)) :
    (∃ idx, filter_df_pd ⟨cols, List.range rows.length, rows⟩ P
        = some ⟨cols, idx, (filter_df ⟨cols, rows⟩ P).rows⟩)
    ∧ filter_df_pd ⟨cols, List.range (filter_df ⟨cols, rows⟩ P).rows.length,
          (filter_df ⟨cols, rows⟩ P).rows⟩ P
      = some ⟨cols, List.range (filter_df ⟨cols, rows⟩ P).rows.length,
          (filter_df ⟨cols, rows⟩ P).rows⟩ := by
  constructor
  · exact ⟨_, filter_df_pd_default cols rows P⟩
  · have hall : ∀ a ∈ (filter_df ⟨cols, rows⟩ P).rows, rowPass cols P a = true := by
      intro a ha
      exact List.of_mem_filter ha
    rw [filter_df_pd_default cols (filter_df ⟨cols, rows⟩ P).rows P]
    congr 1
    rw [PdFrame.mk.injEq]
    refine ⟨rfl, ?_, List.filter_eq_self.mpr hall⟩
    rw [List.range_eq_range']
    exact filterMap_zip_range_all (filter_df ⟨cols, rows⟩ P).rows 0 _ hall

/-- C8: with no active selections — an empty specification, entries whose
    selection is falsy (zero chosen values / empty search text), or entries
    naming absent columns — `filter_df` returns the table unchanged. -/
theorem filter_df_inactive_id (df : DataFrame)
    (filters : List (String × FilterSel))
    (h : filters.all
      (fun p => !(df.cols.contains p.1 && selActive p.2)) = true) :
    filter_df df filters = df := by
  unfold filter_df
  have hall : ∀ r ∈ df.rows, rowPass df.cols filters r = true := by
    intro r _
    unfold rowPass
    rw [List.all_eq_true] at h ⊢
    intro p hp
    have := h p hp
    unfold entryPass
    rw [Bool.not_eq_true'] at this
    rw [this]
    simp
  cases df with
  | mk cols rows =>
    simp only [DataFrame.mk.injEq, true_and]
    exact List.filter_eq_self.mpr hall

/-- Witness for C8: an empty multiselect, an empty search text and an
    absent-column entry leave a concrete table untouched. -/
theorem filter_df_inactive_id_witness :
    filter_df ⟨["Name", "Sector"], [[some "Alice", some "Tech"], [some "Bob", some "Health"]]⟩
        [("Sector", .vals []), ("Name", .search ""), ("Zone", .vals ["X"])]
      = ⟨["Name", "Sector"], [[some "Alice", some "Tech"], [some "Bob", some "Health"]]⟩ :=
  filter_df_inactive_id _ _ (by decide)

/-! ## Theorems: card projection -/

/-- C2 counterexample: on a row with no populated cells,
    `listed_companies_card` in line mode emits the pair ("CEO City", "")
    (and several other empty-valued pairs), so the card projection does
    emit (label, "") pairs for some row and shape. -/
theorem card_lines_empty_value_cex :
    ("CEO City", "") ∈ listed_companies_card_lines [] [] := by decide

/-- C2 amended: `generic_card` in line mode never emits an empty value:
    every returned pair has a non-empty value string. -/
theorem generic_card_lines_nonempty (cols : List String)
    (row : List (Option String)) (columns : List String)
    (p : String × String) (hp : p ∈ generic_card_lines cols row columns) :
    p.2 ≠ "" := by
  unfold generic_card_lines at hp
  rw [List.mem_append] at hp
  rcases hp with h | h
  · rw [List.mem_filterMap] at h
    obtain ⟨c, _, hc⟩ := h
    by_cases hv : val cols row c == ""
    · rw [if_pos hv] at hc
      cases hc
    · rw [if_neg hv] at hc
      cases hc
      simpa using hv
  · by_cases he : combine_vals cols row ["Email", "Phone Number"] ", " == ""
    · rw [if_pos he] at h
      cases h
    · rw [if_neg he] at h
      rw [List.mem_singleton] at h
      subst h
      simpa using he

/-- Witness for the amended C2 at a concrete row. -/
theorem generic_card_lines_nonempty_witness :
    ("A", "x").2 ≠ "" :=
  generic_card_lines_nonempty ["A", "Email"] [some "x", some "e"] ["A"]
    ("A", "x") (by decide)

/-! ## Theorems: PDF document export -/

/-- C4: document export of an empty filtered table returns the byte-empty
    artifact — zero logical rows, in particular no header row — and
    does not fail. -/
theorem pdf_export_empty_artifact (df : DataFrame) (cf : CardFunc)
    (h : df.rows = []) : download_pdf_reportlab df cf = some [] := by
  unfold download_pdf_reportlab
  rw [h]

/-- Witness for C4 at a concrete empty table. -/
theorem pdf_export_empty_artifact_witness :
    download_pdf_reportlab ⟨["Name"], []⟩ genericTake8 = some [] :=
  pdf_export_empty_artifact ⟨["Name"], []⟩ genericTake8 rfl

/-- C3 counterexample: a non-empty one-row table whose first row projects
    no fields under the generic card makes the export fail (division by
    zero), so it does not produce a table of `len(rows)+1 = 2` logical
    rows. -/
theorem pdf_export_nonempty_cex :
    download_pdf_reportlab ⟨["B"], [[none]]⟩ genericTake8 = none
      ∧ (DataFrame.mk ["B"] [[none]]).rows ≠ [] := by
  constructor
  · decide
  · decide

/-- C3 amended: for every non-empty filtered table whose first row projects
    at least one field, the export is defined and consists of exactly
    `len(rows)+1` logical rows: the header row of the first row's projected
    labels, followed by one row per table row rendered by the same
    projection keyed by those labels. -/
theorem pdf_export_rows (df : DataFrame) (cf : CardFunc)
    (r0 : List (Option String)) (rest : List (List (Option String)))
    (h : df.rows = r0 :: rest) (hf : cf df.cols r0 ≠ []) :
    (download_pdf_reportlab df cf).map List.length = some (df.rows.length + 1)
    ∧ (download_pdf_reportlab df cf).map List.head? =
        some (some ((cf df.cols r0).map Prod.fst))
    ∧ (download_pdf_reportlab df cf).map List.tail =
        some (df.rows.map (fun r =>
          ((cf df.cols r0).map Prod.fst).map (pdfCell cf df.cols r))) := by
  have hd : download_pdf_reportlab df cf =
      some (((cf df.cols r0).map Prod.fst) ::
        df.rows.map (fun r => ((cf df.cols r0).map Prod.fst).map (pdfCell cf df.cols r))) := by
    unfold download_pdf_reportlab
    rw [h]
    simp only [List.length_map]
    rw [if_neg (by simpa [List.length_eq_zero] using hf)]
  rw [hd, h]
  simp

/-- Witness for the amended C3 at a concrete one-row table. -/
theorem pdf_export_rows_witness :
    (download_pdf_reportlab ⟨["Name"], [[some "Alice"]]⟩ expert_confirmed_card_lines).map List.length
        = some ((DataFrame.mk ["Name"] [[some "Alice"]]).rows.length + 1)
    ∧ (download_pdf_reportlab ⟨["Name"], [[some "Alice"]]⟩ expert_confirmed_card_lines).map List.head? =
        some (some ((expert_confirmed_card_lines ["Name"] [some "Alice"]).map Prod.fst))
    ∧ (download_pdf_reportlab ⟨["Name"], [[some "Alice"]]⟩ expert_confirmed_card_lines).map List.tail =
        some ((DataFrame.mk ["Name"] [[some "Alice"]]).rows.map (fun r =>
          ((expert_confirmed_card_lines ["Name"] [some "Alice"]).map Prod.fst).map
            (pdfCell expert_confirmed_card_lines ["Name"] r))) :=
  pdf_export_rows ⟨["Name"], [[some "Alice"]]⟩ expert_confirmed_card_lines
    [some "Alice"] [] rfl (by decide)

/-- C10 counterexample: a non-empty table whose first row is entirely
    empty projects zero fields under the generic card, so the width
    divisor is zero and the export's division fails. -/
theorem card_fields_divisor_cex :
    numFields ⟨["A"], [[none]]⟩ genericTake8 = 0
      ∧ (DataFrame.mk ["A"] [[none]]).rows ≠ []
      ∧ download_pdf_reportlab ⟨["A"], [[none]]⟩ genericTake8 = none := by
  refine ⟨by decide, by decide, by decide⟩

/-- The six named card shapes project a fixed number of lines. -/
theorem named_card_lines_length (cols : List String) (row : List (Option String)) :
    (listed_companies_card_lines cols row).length = 7
    ∧ (expert_confirmed_card_lines cols row).length = 5
    ∧ (expert_potential_card_lines cols row).length = 5
    ∧ (channel_checks_card_lines cols row).length = 4
    ∧ (ir_data_card_lines cols row).length = 4
    ∧ (ministry_contacts_card_lines cols row).length = 6 :=
  ⟨rfl, rfl, rfl, rfl, rfl, rfl⟩

/-- C10 amended: for every non-empty table exported with one of the six
    named card shapes the width divisor is positive (7, 5, 5, 4, 4 and 6
    fields respectively), so their width division is well-defined; only
    the generic fallback card can make it zero. -/
theorem named_card_fields_positive (df : DataFrame) (h : df.rows ≠ []) :
    0 < numFields df listed_companies_card_lines
    ∧ 0 < numFields df expert_confirmed_card_lines
    ∧ 0 < numFields df expert_potential_card_lines
    ∧ 0 < numFields df channel_checks_card_lines
    ∧ 0 < numFields df ir_data_card_lines
    ∧ 0 < numFields df ministry_contacts_card_lines := by
  cases df with
  | mk cols rows =>
    cases rows with
    | nil => exact absurd rfl h
    | cons r0 rest =>
      refine ⟨?_, ?_, ?_, ?_, ?_, ?_⟩ <;>
        simp [numFields, listed_companies_card_lines, expert_confirmed_card_lines,
          expert_potential_card_lines, channel_checks_card_lines,
          ir_data_card_lines, ministry_contacts_card_lines]

/-- Witness for the amended C10 at a concrete one-row table. -/
theorem named_card_fields_positive_witness :
    0 < numFields ⟨["Name"], [[some "Alice"]]⟩ listed_companies_card_lines
    ∧ 0 < numFields ⟨["Name"], [[some "Alice"]]⟩ expert_confirmed_card_lines
    ∧ 0 < numFields ⟨["Name"], [[some "Alice"]]⟩ expert_potential_card_lines
    ∧ 0 < numFields ⟨["Name"], [[some "Alice"]]⟩ channel_checks_card_lines
    ∧ 0 < numFields ⟨["Name"], [[some "Alice"]]⟩ ir_data_card_lines
    ∧ 0 < numFields ⟨["Name"], [[some "Alice"]]⟩ ministry_contacts_card_lines :=
  named_card_fields_positive ⟨["Name"], [[some "Alice"]]⟩ (by decide)

/-! ## Theorems: dashboard aggregator -/

/-- C5 counterexample: with an active name filter and a single group "B"
    whose one row matches the combined predicate vacuously (the group has
    no name-like column, so no axis applies), the group's matching subset
    is non-empty yet the dashboard omits it from the result. -/
theorem dashboard_omits_unapplied_group_cex :
    all_dashboard_filtered [("B", ⟨["Foo"], [[some "x"]]⟩)] ⟨"x", [], [], ""⟩ = some []
    ∧ sheetFilteredRows [("B", ⟨["Foo"], [[some "x"]]⟩)] ⟨"x", [], [], ""⟩
        ⟨["Foo"], [[some "x"]]⟩ = [[some "x"]]
    ∧ anyFilterActive [("B", ⟨["Foo"], [[some "x"]]⟩)] ⟨"x", [], [], ""⟩ = true := by
  refine ⟨by decide, by decide, by decide⟩

/-- C5 amended: with some filter axis active, the dashboard result
    contains exactly those groups to which at least one active axis
    applies (touches one of the group's columns) and whose own rows yield
    a non-empty subset under the combined predicate; each such group
    appears with precisely its matching rows, and a group with an empty
    matching subset — or one no active axis applies to — is omitted
    entirely. -/
theorem dashboard_groups_characterization (dfs : List (String × DataFrame))
    (S : DashState) (h : anyFilterActive dfs S = true) :
    ∃ groups, all_dashboard_filtered dfs S = some groups ∧
      ∀ n rows, (n, rows) ∈ groups ↔
        ∃ df, (n, df) ∈ dfs ∧ sheetApplied dfs S df = true
          ∧ sheetFilteredRows dfs S df = rows ∧ rows ≠ [] := by
  refine ⟨_, by unfold all_dashboard_filtered; rw [if_pos h], ?_⟩
  intro n rows
  rw [List.mem_filterMap]
  constructor
  · rintro ⟨p, hp, hf⟩
    split at hf
    · rename_i hcond
      rw [Option.some.injEq, Prod.mk.injEq] at hf
      obtain ⟨h1, h2⟩ := hf
      rw [Bool.and_eq_true, Bool.not_eq_true', List.isEmpty_eq_false] at hcond
      refine ⟨p.2, ?_, hcond.1, h2, h2 ▸ hcond.2⟩
      rw [← h1]
      exact hp
    · cases hf
  · rintro ⟨df, hmem, happ, hrows, hne⟩
    refine ⟨(n, df), hmem, ?_⟩
    rw [if_pos]
    · rw [hrows]
    · rw [Bool.and_eq_true, Bool.not_eq_true', List.isEmpty_eq_false]
      exact ⟨happ, hrows ▸ hne⟩

/-- Witness for the amended C5: the spec scenario — group "A" with two
    matching rows, group "B" with none — under an active name filter. -/
theorem dashboard_groups_characterization_witness :
    ∃ groups,
      all_dashboard_filtered
        [("A", ⟨["Name"], [[some "Alice"], [some "Alan"]]⟩),
         ("B", ⟨["Name"], [[some "Bob"]]⟩)] ⟨"al", [], [], ""⟩ = some groups ∧
      ∀ n rows, (n, rows) ∈ groups ↔
        ∃ df, (n, df) ∈
            [("A", ⟨["Name"], [[some "Alice"], [some "Alan"]]⟩),
             ("B", ⟨["Name"], [[some "Bob"]]⟩)]
          ∧ sheetApplied
              [("A", ⟨["Name"], [[some "Alice"], [some "Alan"]]⟩),
               ("B", ⟨["Name"], [[some "Bob"]]⟩)] ⟨"al", [], [], ""⟩ df = true
          ∧ sheetFilteredRows
              [("A", ⟨["Name"], [[some "Alice"], [some "Alan"]]⟩),
               ("B", ⟨["Name"], [[some "Bob"]]⟩)] ⟨"al", [], [], ""⟩ df = rows
          ∧ rows ≠ [] :=
  dashboard_groups_characterization
    [("A", ⟨["Name"], [[some "Alice"], [some "Alan"]]⟩),
     ("B", ⟨["Name"], [[some "Bob"]]⟩)] ⟨"al", [], [], ""⟩ (by decide)
